import Mathlib

/-!
# Verification of the chaos game engine (Rust) against its specification

Shallow embedding of the server-side game engine: the arena data model
(`src/data/arena.rs`), spells (`src/data/spells.rs`), creations
(`src/data/creation.rs`), wizards and the roster (`src/data/wizard.rs`),
the pixel model of the rendering buffer used by line-of-sight
(`src/gfx/buffer.rs`, `src/gfx/color.rs`), and the spell/environment
resolution steps of `src/net/server/game_logic.rs`.

Machine integers are modelled as `Nat` (for `u8`/`u32`/`usize`) and `Int`
(for `i8`/`isize`), with explicit wrapping (`% 256` style) exactly where the
Rust arithmetic is performed at width 8.  Randomness is modelled by passing
the uniform 0–9 draw as an explicit argument.  Fallible accessors (Rust
`.expect`, i.e. panic on `None`) are modelled with `Option`: a `none` result
is the panic-class fault.
-/

namespace Chaos

/-- Colors from `src/gfx/color.rs` (`enum Color`). -/
inductive Color where
  | Black | Blue | Red | Magenta | Green | Cyan | Yellow | White
  | BrightBlack | BrightBlue | BrightRed | BrightMagenta
  | BrightGreen | BrightCyan | BrightYellow | BrightWhite
deriving DecidableEq, Repr

/-- `rgb_to_u32` from `src/gfx/color.rs`. -/
def rgbToU32 (r g b : Nat) : Nat := r * 65536 + g * 256 + b

/-- `impl From<Color> for u32` from `src/gfx/color.rs`. -/
def Color.toU32 : Color → Nat
  | .Black => rgbToU32 9 9 9
  | .Blue => rgbToU32 29 0 166
  | .Red => rgbToU32 140 0 0
  | .Magenta => rgbToU32 157 0 161
  | .Green => rgbToU32 0 143 0
  | .Cyan => rgbToU32 0 166 168
  | .Yellow => rgbToU32 182 180 0
  | .White => rgbToU32 204 204 204
  | .BrightBlack => rgbToU32 9 9 9
  | .BrightBlue => rgbToU32 34 0 186
  | .BrightRed => rgbToU32 164 0 0
  | .BrightMagenta => rgbToU32 186 0 189
  | .BrightGreen => rgbToU32 0 175 0
  | .BrightCyan => rgbToU32 0 204 205
  | .BrightYellow => rgbToU32 225 224 0
  | .BrightWhite => rgbToU32 255 255 255

/-- A sprite frame, `Frame` from `src/data/stats.rs`: `bytes: [u8; 32]`
interpreted by `Buffer::from_shorts` as 16 rows of 16 pixels (two
big-endian bytes per row), a foreground color and an optional background
color.  `rows` holds the sixteen 16-bit row values. -/
structure SpriteFrame where
  rows : List Nat
  fg : Color
  bg : Option Color
deriving DecidableEq, Repr

/-- The pixel a frame produces at offset `(ox, oy)` inside its 16×16 cell.
`Buffer::from_shorts` (`src/gfx/buffer.rs`): the buffer starts all black
(`Buffer::new`); a set bit paints the foreground color, a clear bit paints
the background color when one is given and otherwise leaves the black
initial pixel.  Bits are consumed most-significant first, so pixel `ox`
is bit `15 - ox`. -/
def SpriteFrame.pixel (f : SpriteFrame) (ox oy : Nat) : Nat :=
  if Nat.testBit (f.rows.getD oy 0) (15 - ox) then f.fg.toU32
  else match f.bg with
    | some c => c.toU32
    | none => Color.Black.toU32

/-- `Gfx` from `src/data/stats.rs` (the `timing`/`frames`/`corpse` animation
payload; `frames` has four entries). -/
structure Gfx where
  timing : Nat
  frames : List SpriteFrame
  corpse : Option SpriteFrame
deriving DecidableEq, Repr

/-- `BaseStats` from `src/data/stats.rs` (all stats are `u8`). -/
structure BaseStats where
  name : String
  combat : Nat
  ranged_combat : Nat
  range : Nat
  defence : Nat
  movement : Nat
  manoeuvre : Nat
  magical_resistance : Nat
deriving DecidableEq, Repr

/-- `CreationStats` from `src/data/stats.rs`. -/
structure CreationStats where
  base : BaseStats
  casting_chance : Nat
  alignment : Int
  mount : Bool
  flying : Bool
  undead : Bool
  transparent : Bool
  subvertable : Bool
  attackable : Bool
  dragon : Bool
  shelter : Bool
  magic_wood : Bool
  shadow_wood : Bool
  gfx : Gfx
deriving DecidableEq, Repr

/-- `AttackBuff` from `src/data/stats.rs`. -/
inductive AttackBuff where
  | MagicKnife | MagicSword
deriving DecidableEq, Repr

/-- `DefenceBuff` from `src/data/stats.rs`. -/
inductive DefenceBuff where
  | MagicShield | MagicArmour
deriving DecidableEq, Repr

/-- `WizardStats` from `src/data/stats.rs`. -/
structure WizardStats where
  base : BaseStats
  number_of_spells : Nat
  spell_ability : Nat
  attack_buff : Option AttackBuff
  defence_buff : Option DefenceBuff
  magic_wings : Bool
  magic_bow : Bool
  shadow_form : Bool
  gfx : Gfx
deriving DecidableEq, Repr

/-- `WizardStats::get_movement` from `src/data/stats.rs`. -/
def WizardStats.get_movement (s : WizardStats) : Nat :=
  if s.shadow_form then s.base.movement + 2 else s.base.movement

/-- `GameCreation` from `src/data/creation.rs`.  The `buffers` field of the
Rust struct is derived from `stats.gfx` via `Gfx::as_buffers` at
construction (`GameCreation::new`) and rendering reads
`buffers[current_frame]`; we keep `stats.gfx.frames` as the single source
of the sprite data and index it with `current_frame`.  Likewise
`corpse_buf` is `stats.gfx.corpse` rendered. -/
structure GameCreation where
  id : Nat
  moves_left : Nat
  stats : CreationStats
  frame_count : Nat
  current_frame : Nat
  illusion : Bool
deriving DecidableEq, Repr

/-- The sprite `GameCreation`'s `current_tic` renders
(`buffers.get(self.current_frame).unwrap()` in `src/data/creation.rs`,
where `buffers = stats.gfx.as_buffers()`). -/
def GameCreation.currentSprite (c : GameCreation) : SpriteFrame :=
  c.stats.gfx.frames.getD c.current_frame ⟨[], .Black, none⟩

/-- `GameWizard` from `src/data/wizard.rs` (the `buffers` field is
`stats.gfx.as_buffers()`, see `GameCreation`). -/
structure GameWizard where
  id : Nat
  name : String
  moves_left : Nat
  stats : WizardStats
  frame_count : Nat
  current_frame : Nat
deriving DecidableEq, Repr

/-- The sprite `GameWizard`'s `current_tic` renders. -/
def GameWizard.currentSprite (w : GameWizard) : SpriteFrame :=
  w.stats.gfx.frames.getD w.current_frame ⟨[], .Black, none⟩

/-- `Spawn` from `src/data/arena.rs`. -/
inductive Spawn where
  | Blob (creation : GameCreation)
  | Fire (creation : GameCreation)
deriving DecidableEq, Repr

/-- The creation payload carried by a spawn. -/
def Spawn.creation : Spawn → GameCreation
  | .Blob c => c
  | .Fire c => c

/-- The owner id of a spawn. -/
def Spawn.id (s : Spawn) : Nat := s.creation.id

/-- `Tile` from `src/data/arena.rs`: at most one spawn, corpse, creation and
wizard each. -/
structure Tile where
  spawn : Option Spawn
  corpse : Option GameCreation
  creation : Option GameCreation
  wizard : Option GameWizard
deriving DecidableEq, Repr

/-- `Tile::default()`: all four slots empty. -/
def Tile.empty : Tile := ⟨none, none, none, none⟩

/-- `Arena` from `src/data/arena.rs`: world alignment (`i8`), the flat
row-major tile vector, and the `u8` dimensions. -/
structure Arena where
  alignment : Int
  tiles : List Tile
  width : Nat
  height : Nat
deriving DecidableEq, Repr

/-- `Arena::new()`: a 15×10 grid of empty tiles, alignment 0. -/
def Arena.new : Arena :=
  { alignment := 0, tiles := List.replicate (15 * 10) Tile.empty, width := 15, height := 10 }

/-- The arena produced by `Arena::new` and preserved by every mutator:
15 wide, 10 high, exactly `15 * 10` tiles. -/
def Arena.WF (a : Arena) : Prop :=
  a.width = 15 ∧ a.height = 10 ∧ a.tiles.length = 150

/-- The flat index computed by `Arena::get` / `Arena::get_mut`
(`src/data/arena.rs` lines 91–93 and 122–124): `((y * self.width) + x) as
usize` where `x`, `y` and `width` are `u8`, so the multiplication and the
addition are 8-bit operations (wrapping, as compiled in release mode). -/
def tileIndex (w x y : Nat) : Nat := ((y * w) % 256 + x) % 256

/-- `Arena::get` and `Arena::get_mut` (`src/data/arena.rs`): both read
`self.tiles` at `tileIndex` and `.expect("tile")`; `none` models the
panic-class fault when the index is outside the tile vector. -/
def Arena.get? (a : Arena) (x y : Nat) : Option Tile :=
  a.tiles.get? (tileIndex a.width x y)

/-- The write half of `Arena::get_mut`: replace the tile the computed flat
index denotes (out-of-range indices leave the vector unchanged, matching
the fact that the Rust code would have panicked before writing). -/
def Arena.setTile (a : Arena) (x y : Nat) (t : Tile) : Arena :=
  { a with tiles := a.tiles.set (tileIndex a.width x y) t }

theorem wf_new : Arena.new.WF := by
  refine ⟨rfl, rfl, ?_⟩
  simp [Arena.new]

/-- **C1** (amended).  With the 15×10 arena, `Arena::get`/`Arena::get_mut`
succeed on every in-bounds coordinate pair and return the row-major tile
`tiles[y*width+x]`; but an out-of-range pair does **not** always fault:
the access faults exactly when the computed 8-bit flat index `y*15 + x`
falls at or beyond 150 (stated here on the wrap-free domain
`y*15 + x ≤ 255`).  Pairs such as `(15, 0)` alias an in-bounds tile. -/
theorem C1_get_amended (a : Arena) (h : a.WF) (x y : Nat) :
    (x < 15 → y < 10 → a.get? x y = a.tiles.get? (y * 15 + x) ∧ (a.get? x y).isSome) ∧
    (y * 15 + x ≤ 255 → (a.get? x y = none ↔ 150 ≤ y * 15 + x)) := by
  obtain ⟨hw, -, hlen⟩ := h
  have hidx : y * 15 + x ≤ 255 → tileIndex a.width x y = y * 15 + x := by
    intro hb
    have h1 : y * 15 % 256 = y * 15 := Nat.mod_eq_of_lt (by omega)
    simp only [tileIndex, hw, h1]
    exact Nat.mod_eq_of_lt (by omega)
  constructor
  · intro hx hy
    have hb : y * 15 + x ≤ 255 := by omega
    have := hidx hb
    constructor
    · simp [Arena.get?, this]
    · rw [Arena.get?, this, Option.isSome_iff_ne_none]
      intro hnone
      rw [List.get?_eq_none] at hnone
      omega
  · intro hb
    rw [Arena.get?, hidx hb, List.get?_eq_none, hlen]

/-- **C1** witness: the amended theorem applied at the fresh arena and the
in-bounds pair `(14, 9)`. -/
theorem C1_witness :
    Arena.new.get? 14 9 = Arena.new.tiles.get? 149 ∧ (Arena.new.get? 14 9).isSome := by
  have h := (C1_get_amended Arena.new wf_new 14 9).1 (by norm_num) (by norm_num)
  simpa using h

/-- **C1** counterexample: the claim says every pair with `x ≥ 15` faults,
but `get(15, 0)` returns a tile (the tile at flat index 15, i.e. the
in-bounds cell `(0, 1)`) instead of faulting. -/
theorem C1_counterexample : Arena.new.get? 15 0 = some Tile.empty := by
  decide

/-- Two's-complement wrap to the `i8` value range, the semantics of 8-bit
signed arithmetic as compiled in release mode. -/
def wrapI8 (n : Int) : Int := (n + 128) % 256 - 128

/-- `i8::abs` with its overflow wrapped (`|i8::MIN|` stays `-128`). -/
def absI8 (n : Int) : Int := wrapI8 |n|

/-- `SpellKind` from `src/data/spells.rs` (the payloads the cast-chance
formula never inspects are kept, with `CreationStats` for the creation
variants). -/
inductive SpellKind where
  | Disbelieve
  | Creation (stats : CreationStats)
  | MagicFire (stats : CreationStats)
  | GooeyBlob (stats : CreationStats)
  | MagicWood (stats : CreationStats)
  | ShadowWood (stats : CreationStats)
  | Shelter (stats : CreationStats)
  | Wall (stats : CreationStats)
  | MagicBolt
  | Lightning
  | MagicalAttack (n : Nat)
  | WizardAttackBuff (buff : AttackBuff)
  | WizardDefenceBuff (buff : DefenceBuff)
  | MagicBow
  | MagicWings
  | WorldAlignment
  | ShadowForm
  | Subversion
  | RaiseDead
deriving Repr

/-- `Spell` from `src/data/spells.rs`: `chance` and `range` are `u8`,
`alignment` is `i8`. -/
structure Spell where
  name : String
  chance : Nat
  range : Nat
  alignment : Int
  kind : SpellKind
deriving Repr

/-- `Spell::cast_chance` from `src/data/spells.rs` lines 22–28:
```rust
let mut chance = self.chance as i8;
if (self.alignment > 0 && alignment > 0) || (self.alignment < 0 && alignment < 0) {
    chance += alignment.abs() / 4;
}
(chance + spell_ability as i8).min(9)
```
All arithmetic is `i8` (wrapped); `alignment.abs()` wraps at `-128`;
`/` is Rust's truncating division (every division performed here is exact
or on a non-negative value, where truncating and flooring agree). -/
def Spell.cast_chance (s : Spell) (alignment : Int) (spell_ability : Nat) : Int :=
  let chance := wrapI8 s.chance
  let chance :=
    if (s.alignment > 0 ∧ alignment > 0) ∨ (s.alignment < 0 ∧ alignment < 0) then
      wrapI8 (chance + absI8 alignment / 4)
    else chance
  min (wrapI8 (chance + wrapI8 spell_ability)) 9

/-- The cast-chance formula exactly as the specification words it:
`min(baseChance + boost + spellAbility, 9)` with `boost = |alignment|/4`
on a strict sign match — written from the spec, for comparison with
`Spell.cast_chance` above. -/
def specCastChance (base : Nat) (spellAlignment alignment : Int) (spellAbility : Nat) : Int :=
  let boost : Int :=
    if (spellAlignment > 0 ∧ alignment > 0) ∨ (spellAlignment < 0 ∧ alignment < 0) then
      |alignment| / 4
    else 0
  min ((base : Int) + boost + spellAbility) 9

theorem wrapI8_eq_of_mem (n : Int) (h1 : -128 ≤ n) (h2 : n ≤ 127) : wrapI8 n = n := by
  unfold wrapI8
  omega

/-- A chaotic spell used in the counterexamples below (base chance 9,
alignment −1, the shape of e.g. the DARK CITADEL-class entries of the
catalog; the kind is irrelevant to the formula). -/
def exChaosSpell : Spell :=
  { name := "CHAOS SPELL", chance := 9, range := 4, alignment := -1, kind := .WorldAlignment }

/-- **C2** (amended).  For every spell whose base chance is on the 0–9
scale, every spell ability on the 0–9 scale and every world alignment
except `i8::MIN`, `cast_chance` equals
`min(base + boost + ability, 9)` with `boost = |alignment|/4` on a strict
sign match and `0` otherwise; and for **all** inputs whatsoever the result
never exceeds 9.  (At `alignment = -128` the `i8` absolute value wraps to
`-128` itself, so the boost becomes `-32` and the claimed formula fails;
see the counterexample.) -/
theorem C2_cast_chance_amended (s : Spell) (alignment : Int) (spell_ability : Nat)
    (hc : s.chance ≤ 9) (ha1 : -127 ≤ alignment) (ha2 : alignment ≤ 127)
    (hs : spell_ability ≤ 9) :
    s.cast_chance alignment spell_ability
      = specCastChance s.chance s.alignment alignment spell_ability ∧
    ∀ (a : Int) (ab : Nat), s.cast_chance a ab ≤ 9 := by
  constructor
  · simp only [Spell.cast_chance, specCastChance]
    have habs : |alignment| ≤ 127 := abs_le.mpr ⟨by omega, ha2⟩
    have habs0 : 0 ≤ |alignment| := abs_nonneg alignment
    have hdiv0 : 0 ≤ |alignment| / 4 := Int.ediv_nonneg habs0 (by norm_num)
    have hdiv31 : |alignment| / 4 ≤ 31 := by omega
    have hA : absI8 alignment = |alignment| := wrapI8_eq_of_mem _ (by omega) (by omega)
    have hchance : wrapI8 s.chance = (s.chance : Int) :=
      wrapI8_eq_of_mem _ (by omega) (by omega)
    have hab : wrapI8 spell_ability = (spell_ability : Int) :=
      wrapI8_eq_of_mem _ (by omega) (by omega)
    rw [hA, hchance, hab]
    by_cases hcond : (s.alignment > 0 ∧ alignment > 0) ∨ (s.alignment < 0 ∧ alignment < 0)
    · simp only [if_pos hcond]
      rw [wrapI8_eq_of_mem (wrapI8 ((s.chance : Int) + |alignment| / 4) + spell_ability)
          (by rw [wrapI8_eq_of_mem _ (by omega) (by omega)]; omega)
          (by rw [wrapI8_eq_of_mem _ (by omega) (by omega)]; omega),
        wrapI8_eq_of_mem _ (by omega) (by omega)]
    · simp only [if_neg hcond]
      rw [wrapI8_eq_of_mem _ (by omega) (by omega)]
      omega
  · intro a ab
    exact min_le_right _ _

/-- **C2** witness: the amended formula evaluated at the spec's own
example: base chance 9, matching alignment with `|alignment| = 40`,
spell ability 9, giving 9 (not `9 + 10 + 9`). -/
theorem C2_witness :
    exChaosSpell.cast_chance (-40) 9 = specCastChance 9 (-1) (-40) 9 ∧
    exChaosSpell.cast_chance (-40) 9 = 9 := by
  have h := (C2_cast_chance_amended exChaosSpell (-40) 9 (by decide) (by norm_num)
    (by norm_num) (by norm_num)).1
  refine ⟨h, ?_⟩
  rw [h]
  decide

/-- **C2** counterexample: at world alignment `-128` (reachable through the
saturating alignment counter) and a chaotic spell, `alignment.abs()`
wraps to `-128`, the boost becomes `-32`, and `cast_chance` returns `-14`
where the claimed formula `min(9 + 32 + 9, 9)` gives `9`. -/
theorem C2_counterexample :
    exChaosSpell.cast_chance (-128) 9 = -14 ∧
    specCastChance 9 (-1) (-128) 9 = 9 ∧
    exChaosSpell.cast_chance (-128) 9 ≠ specCastChance 9 (-1) (-128) 9 := by
  refine ⟨by decide, by decide, by decide⟩

/-- `GameCreation::should_disappear` from `src/data/creation.rs` lines
67–70: `rng.gen_range(0..=9) >= 8`, with the uniform 0–9 draw passed
explicitly. -/
def should_disappear (draw : Nat) : Bool := draw ≥ 8

/-- The per-wizard magic-wood roll of `GameLogic::do_magic_wood`
(`src/net/server/game_logic.rs`): `rng.gen_range(0..=9) >= 8`, with the
uniform 0–9 draw passed explicitly. -/
def magicWoodRoll (draw : Nat) : Bool := draw ≥ 8

/-- **C3** (amended).  Each combustible shelter tile vanishes with
probability exactly **20 %** (the decay predicate holds for exactly 2 of
the 10 equally likely 0–9 draws, namely 8 and 9), and likewise each
wizard standing in magic-wood receives a random new spell with
probability exactly 20 % per round. -/
theorem C3_environment_rolls_amended :
    ((Finset.range 10).filter (fun d => should_disappear d = true)).card = 2 ∧
    ((Finset.range 10).filter (fun d => magicWoodRoll d = true)).card = 2 ∧
    (∀ d, should_disappear d = true ↔ d = 8 ∨ d = 9 ∨ 10 ≤ d) ∧
    (∀ d, magicWoodRoll d = true ↔ d = 8 ∨ d = 9 ∨ 10 ≤ d) := by
  refine ⟨by decide, by decide, ?_, ?_⟩ <;>
    · intro d
      simp [should_disappear, magicWoodRoll]
      omega

/-- **C3** counterexample: both rolls hold for **2** of the 10 equally
likely draws, not 1 — the probability is 20 %, not the claimed 10 %. -/
theorem C3_counterexample :
    ((Finset.range 10).filter (fun d => should_disappear d = true)).card ≠ 1 ∧
    ((Finset.range 10).filter (fun d => magicWoodRoll d = true)).card ≠ 1 := by
  refine ⟨by decide, by decide⟩

/-- `Player` from `src/config.rs`. -/
structure Player where
  name : String
  character : Nat
  color : Nat
deriving DecidableEq, Repr

/-- `Wizard` from `src/data/wizard.rs` (the roster entry; `spells` and
`stats` are carried but irrelevant to the win condition). -/
structure Wizard where
  player : Player
  id : Nat
  alive : Bool
  disconnected : Bool
  spells : List Spell
  stats : WizardStats

/-- `ServerWizards` from `src/data/wizard.rs`. -/
structure ServerWizards where
  wizards : List Wizard

/-- `ServerWizards::check_for_winning_condition` from
`src/data/wizard.rs` lines 199–201. -/
def ServerWizards.check_for_winning_condition (ws : ServerWizards) : Bool :=
  (ws.wizards.filter (fun w => w.alive && !w.disconnected)).length == 1

/-- `ServerWizards::winners` from `src/data/wizard.rs` lines 203–214. -/
def ServerWizards.winners (ws : ServerWizards) : List Player :=
  ws.wizards.filterMap (fun w => if w.alive && !w.disconnected then some w.player else none)

/-- **C6**: `check_for_winning_condition` is true iff exactly one roster
player is simultaneously alive and not disconnected, and `winners`
returns exactly the profiles of all alive-and-connected players — so with
one active player left it is exactly that player's profile, and with 0 or
≥ 2 it is the whole alive-and-connected set. -/
theorem C6_win_condition (ws : ServerWizards) :
    (ws.check_for_winning_condition = true ↔
      (ws.wizards.filter (fun w => w.alive && !w.disconnected)).length = 1) ∧
    ws.winners = (ws.wizards.filter (fun w => w.alive && !w.disconnected)).map (·.player) ∧
    (∀ w, ws.wizards.filter (fun w => w.alive && !w.disconnected) = [w] →
      ws.check_for_winning_condition = true ∧ ws.winners = [w.player]) := by
  have hmap : ws.winners
      = (ws.wizards.filter (fun w => w.alive && !w.disconnected)).map (·.player) := by
    unfold ServerWizards.winners
    induction ws.wizards with
    | nil => rfl
    | cons w rest ih =>
      cases hA : w.alive <;> cases hD : w.disconnected <;>
        · simp [List.filterMap_cons, List.filter_cons, hA, hD] at ih ⊢
          try exact ih
  refine ⟨?_, hmap, ?_⟩
  · unfold ServerWizards.check_for_winning_condition
    exact beq_iff_eq
  · intro w hw
    refine ⟨?_, ?_⟩
    · unfold ServerWizards.check_for_winning_condition
      rw [hw]
      rfl
    · rw [hmap, hw]
      rfl

/-- **C6** witness: a two-player roster with one player dead — the win
condition holds and the winner list is exactly the survivor's profile. -/
theorem C6_witness :
    ({ wizards := [
        { player := ⟨"A", 0, 0⟩, id := 0, alive := false, disconnected := false,
          spells := [], stats := ⟨⟨"A", 1, 0, 0, 1, 1, 3, 6⟩, 11, 0, none, none,
            false, false, false, ⟨30, [], none⟩⟩ },
        { player := ⟨"B", 1, 1⟩, id := 1, alive := true, disconnected := false,
          spells := [], stats := ⟨⟨"B", 1, 0, 0, 1, 1, 3, 6⟩, 11, 0, none, none,
            false, false, false, ⟨30, [], none⟩⟩ }] } : ServerWizards).check_for_winning_condition
        = true ∧
    ({ wizards := [
        { player := ⟨"A", 0, 0⟩, id := 0, alive := false, disconnected := false,
          spells := [], stats := ⟨⟨"A", 1, 0, 0, 1, 1, 3, 6⟩, 11, 0, none, none,
            false, false, false, ⟨30, [], none⟩⟩ },
        { player := ⟨"B", 1, 1⟩, id := 1, alive := true, disconnected := false,
          spells := [], stats := ⟨⟨"B", 1, 0, 0, 1, 1, 3, 6⟩, 11, 0, none, none,
            false, false, false, ⟨30, [], none⟩⟩ }] } : ServerWizards).winners
        = [⟨"B", 1, 1⟩] := by
  exact (C6_win_condition _).2.2
    { player := ⟨"B", 1, 1⟩, id := 1, alive := true, disconnected := false,
      spells := [], stats := ⟨⟨"B", 1, 0, 0, 1, 1, 3, 6⟩, 11, 0, none, none,
        false, false, false, ⟨30, [], none⟩⟩ } rfl

/-- The loop body of `Arena::kill_wizard_and_creations`
(`src/data/arena.rs` lines 505–537), acting on one tile: clear the spawn
(blob or fire), the wizard, the creation and the corpse when their owner
id is the killed wizard's. -/
def killTile (id : Nat) (tile : Tile) : Tile :=
  let tile := match tile.spawn with
    | some (.Blob blob) => if id = blob.id then { tile with spawn := none } else tile
    | some (.Fire fire) => if id = fire.id then { tile with spawn := none } else tile
    | none => tile
  let tile := match tile.wizard with
    | some w => if w.id = id then { tile with wizard := none } else tile
    | none => tile
  let tile := match tile.creation with
    | some c => if c.id = id then { tile with creation := none } else tile
    | none => tile
  match tile.corpse with
    | some c => if c.id = id then { tile with corpse := none } else tile
    | none => tile

/-- `Arena::kill_wizard_and_creations`: `for (_, _, tile) in self.each_tile_mut()`
applying `killTile` to every tile. -/
def Arena.kill_wizard_and_creations (a : Arena) (id : Nat) : Arena :=
  { a with tiles := a.tiles.map (killTile id) }

/-- Drop an optional creation when it is owned by `id` (used to state what
`kill_wizard_and_creations` does slot by slot). -/
def dropOwned (id : Nat) : Option GameCreation → Option GameCreation
  | some c => if c.id = id then none else some c
  | none => none

/-- Drop an optional spawn when its creation payload is owned by `id`. -/
def dropOwnedSpawn (id : Nat) : Option Spawn → Option Spawn
  | some s => if s.id = id then none else some s
  | none => none

/-- Drop an optional wizard when owned by `id`. -/
def dropOwnedWizard (id : Nat) : Option GameWizard → Option GameWizard
  | some w => if w.id = id then none else some w
  | none => none

set_option maxHeartbeats 2000000 in
theorem killTile_eq (id : Nat) (t : Tile) :
    killTile id t =
      { spawn := dropOwnedSpawn id t.spawn, corpse := dropOwned id t.corpse,
        creation := dropOwned id t.creation, wizard := dropOwnedWizard id t.wizard } := by
  rcases t with ⟨spawn, corpse, creation, wizard⟩
  rcases spawn with - | s <;> [skip; rcases s with c | c] <;>
    rcases corpse with - | cc <;> rcases creation with - | cr <;> rcases wizard with - | w <;>
    simp only [killTile, dropOwned, dropOwnedSpawn, dropOwnedWizard, Spawn.id, Spawn.creation] <;>
    split_ifs <;> simp_all

/-- **C7**: `kill_wizard_and_creations(id)` removes from every tile the
spawn (blob or fire), wizard, creation and corpse owned by `id` (leaving
every other occupant in place), and afterwards no piece owned by `id`
remains anywhere on the board. -/
theorem C7_kill_wizard_and_creations (a : Arena) (id : Nat) :
    (∀ i t, a.tiles.get? i = some t →
      (a.kill_wizard_and_creations id).tiles.get? i = some
        { spawn := dropOwnedSpawn id t.spawn, corpse := dropOwned id t.corpse,
          creation := dropOwned id t.creation, wizard := dropOwnedWizard id t.wizard }) ∧
    (∀ t' ∈ (a.kill_wizard_and_creations id).tiles,
      (∀ s, t'.spawn = some s → s.id ≠ id) ∧
      (∀ c, t'.creation = some c → c.id ≠ id) ∧
      (∀ c, t'.corpse = some c → c.id ≠ id) ∧
      (∀ w, t'.wizard = some w → w.id ≠ id)) := by
  constructor
  · intro i t h
    rw [Arena.kill_wizard_and_creations]
    simp only [List.get?_map, h, Option.map_some']
    rw [killTile_eq]
  · intro t' ht'
    rw [Arena.kill_wizard_and_creations] at ht'
    obtain ⟨t, -, rfl⟩ := List.mem_map.mp ht'
    rw [killTile_eq]
    refine ⟨?_, ?_, ?_, ?_⟩
    · intro s hs
      rcases h : t.spawn with - | s0 <;> simp only [dropOwnedSpawn, h] at hs
      · exact absurd hs (by simp)
      · split_ifs at hs with hid
        obtain rfl : s0 = s := by simpa using hs
        simpa using hid
    · intro c hc
      rcases h : t.creation with - | c0 <;> simp only [dropOwned, h] at hc
      · exact absurd hc (by simp)
      · split_ifs at hc with hid
        obtain rfl : c0 = c := by simpa using hc
        simpa using hid
    · intro c hc
      rcases h : t.corpse with - | c0 <;> simp only [dropOwned, h] at hc
      · exact absurd hc (by simp)
      · split_ifs at hc with hid
        obtain rfl : c0 = c := by simpa using hc
        simpa using hid
    · intro w hw
      rcases h : t.wizard with - | w0 <;> simp only [dropOwnedWizard, h] at hw
      · exact absurd hw (by simp)
      · split_ifs at hw with hid
        obtain rfl : w0 = w := by simpa using hw
        simpa using hid

/-- **C7** witness: the theorem applied to the fresh arena at index 0. -/
theorem C7_witness :
    (Arena.new.kill_wizard_and_creations 0).tiles.get? 0 = some
      { spawn := dropOwnedSpawn 0 Tile.empty.spawn, corpse := dropOwned 0 Tile.empty.corpse,
        creation := dropOwned 0 Tile.empty.creation,
        wizard := dropOwnedWizard 0 Tile.empty.wizard } :=
  (C7_kill_wizard_and_creations Arena.new 0).1 0 Tile.empty (by decide)

/-- The loop body of `Arena::reset_moves` (`src/data/arena.rs` lines
302–322), acting on one tile: `blob` is whether the tile carries a spawn;
an owned wizard gets `0` moves on a spawn tile and otherwise
`stats.get_movement()`; an owned creation gets `0` on a spawn tile, `1`
when shadow-wood, and otherwise `stats.base.movement`. -/
def resetTile (id : Nat) (tile : Tile) : Tile :=
  let blob := tile.spawn.isSome
  let tile := match tile.wizard with
    | some w =>
      if w.id = id then
        { tile with wizard := some ({ w with
            moves_left := if blob then 0 else w.stats.get_movement }) }
      else tile
    | none => tile
  match tile.creation with
    | some c =>
      if c.id = id then
        { tile with creation := some ({ c with
            moves_left := if blob then 0
              else if c.stats.shadow_wood then 1 else c.stats.base.movement }) }
      else tile
    | none => tile

/-- `Arena::reset_moves`: `for (_, _, tile) in self.each_tile_mut()`
applying `resetTile` to every tile. -/
def Arena.reset_moves (a : Arena) (id : Nat) : Arena :=
  { a with tiles := a.tiles.map (resetTile id) }

/-- **C10**: after `reset_moves(id)`, every wizard or creation owned by
`id` on a tile carrying a spawn has `moves_left = 0`; an owned
shadow-wood creation on a spawn-free tile gets exactly 1 movement point;
every other owned piece on a spawn-free tile gets its stat-block movement
value (`get_movement()` for wizards, `base.movement` for creations);
pieces owned by other ids — and the spawn and corpse slots — are
unchanged. -/
theorem C10_reset_moves (a : Arena) (id i : Nat) (t : Tile)
    (h : a.tiles.get? i = some t) :
    ∃ t', (a.reset_moves id).tiles.get? i = some t' ∧
      t'.spawn = t.spawn ∧ t'.corpse = t.corpse ∧
      (∀ w, t.wizard = some w → w.id = id → t.spawn.isSome →
        t'.wizard = some { w with moves_left := 0 }) ∧
      (∀ w, t.wizard = some w → w.id = id → t.spawn = none →
        t'.wizard = some { w with moves_left := w.stats.get_movement }) ∧
      (∀ w, t.wizard = some w → w.id ≠ id → t'.wizard = some w) ∧
      (t.wizard = none → t'.wizard = none) ∧
      (∀ c, t.creation = some c → c.id = id → t.spawn.isSome →
        t'.creation = some { c with moves_left := 0 }) ∧
      (∀ c, t.creation = some c → c.id = id → t.spawn = none → c.stats.shadow_wood = true →
        t'.creation = some { c with moves_left := 1 }) ∧
      (∀ c, t.creation = some c → c.id = id → t.spawn = none → c.stats.shadow_wood = false →
        t'.creation = some { c with moves_left := c.stats.base.movement }) ∧
      (∀ c, t.creation = some c → c.id ≠ id → t'.creation = some c) ∧
      (t.creation = none → t'.creation = none) := by
  refine ⟨resetTile id t, ?_, ?_⟩
  · rw [Arena.reset_moves]
    simp only [List.get?_map, h, Option.map_some']
  · clear h
    rcases t with ⟨spawn, corpse, creation, wizard⟩
    rcases wizard with - | w <;> rcases creation with - | c <;>
      refine ⟨?_, ?_, ?_, ?_, ?_, ?_, ?_, ?_, ?_, ?_, ?_⟩ <;>
      intros <;>
      simp_all only [resetTile, Option.isSome_none, Option.isSome_some, Option.some.injEq,
        Bool.false_eq_true, reduceCtorEq, if_true, if_false] <;>
      try first
        | rfl
        | (split_ifs <;> first | rfl | simp_all)
        | simp_all
    all_goals split_ifs <;> rfl

/-- Concrete wizard stats used in witnesses: the stat shape
`WizardStats::new` produces (combat 1, defence 1, movement 1, manoeuvre 3,
magical resistance 6, 11 spells, ability 0, no buffs or flags). -/
def exWizardStats : WizardStats :=
  ⟨⟨"W", 1, 0, 0, 1, 1, 3, 6⟩, 11, 0, none, none, false, false, false, ⟨30, [], none⟩⟩

/-- A concrete wizard piece (id 0) used in witnesses. -/
def exGameWizard : GameWizard := ⟨0, "W", 0, exWizardStats, 0, 0⟩

/-- A one-tile arena holding only `exGameWizard`, for the `reset_moves`
witness. -/
def exC10Arena : Arena := ⟨0, [⟨none, none, none, some exGameWizard⟩], 1, 1⟩

/-- **C10** witness: a wizard (id 0) standing alone on a spawn-free tile
gets its stat-block movement (1) back. -/
theorem C10_witness :
    ∃ t', (exC10Arena.reset_moves 0).tiles.get? 0 = some t' ∧
      t'.wizard = some { exGameWizard with moves_left := 1 } := by
  obtain ⟨t', h1, -, -, -, h5, -⟩ :=
    C10_reset_moves exC10Arena 0 0 ⟨none, none, none, some exGameWizard⟩ rfl
  refine ⟨t', h1, ?_⟩
  have h := h5 exGameWizard rfl rfl rfl
  simpa [exGameWizard, exWizardStats, WizardStats.get_movement] using h

theorem tileIndex_inbounds {x y : Nat} (w : Nat) (hw : w = 15) (hx : x < 15) (hy : y < 10) :
    tileIndex w x y = y * 15 + x := by
  subst hw
  unfold tileIndex
  rw [Nat.mod_eq_of_lt (a := y * 15) (by omega), Nat.mod_eq_of_lt (by omega)]

theorem setTile_width (a : Arena) (x y : Nat) (t : Tile) : (a.setTile x y t).width = a.width :=
  rfl

theorem setTile_WF (a : Arena) (x y : Nat) (t : Tile) (h : a.WF) : (a.setTile x y t).WF := by
  obtain ⟨h1, h2, h3⟩ := h
  exact ⟨h1, h2, by simp [Arena.setTile, h3]⟩

theorem get?_setTile_same (a : Arena) (h : a.WF) {x y : Nat} (t : Tile)
    (hx : x < 15) (hy : y < 10) : (a.setTile x y t).get? x y = some t := by
  obtain ⟨h1, -, h3⟩ := h
  rw [Arena.setTile, Arena.get?]
  simp only [tileIndex_inbounds a.width h1 hx hy]
  rw [List.get?_set_eq_of_lt]
  omega

theorem get?_setTile_other (a : Arena) (h : a.WF) {x y x' y' : Nat} (t : Tile)
    (hx : x < 15) (hy : y < 10) (hx' : x' < 15) (hy' : y' < 10)
    (hne : (x', y') ≠ (x, y)) : (a.setTile x y t).get? x' y' = a.get? x' y' := by
  obtain ⟨h1, -, -⟩ := h
  rw [Arena.setTile, Arena.get?, Arena.get?]
  simp only [tileIndex_inbounds a.width h1 hx hy, tileIndex_inbounds a.width h1 hx' hy']
  rw [List.get?_set_ne]
  have : ¬(x' = x ∧ y' = y) := by
    intro ⟨e1, e2⟩
    exact hne (by rw [e1, e2])
  omega

/-- `Arena::move_creation` (`src/data/arena.rs` lines 352–357):
```rust
if self.get(sx, sy).wizard.is_some() {
    self.get_mut(dx, dy).wizard = self.get_mut(sx, sy).wizard.take();
}
self.get_mut(dx, dy).creation = self.get_mut(sx, sy).creation.take();
```
Each assignment evaluates its right operand first (`take` empties the
source slot), then writes the destination slot.  `none` models the
panic on an out-of-range coordinate. -/
def Arena.move_creation (a : Arena) (sx sy dx dy : Nat) : Option Arena := do
  let src ← a.get? sx sy
  let a ←
    if src.wizard.isSome then do
      let srcT ← a.get? sx sy
      let a := a.setTile sx sy { srcT with wizard := none }
      let dstT ← a.get? dx dy
      pure (a.setTile dx dy { dstT with wizard := srcT.wizard })
    else pure a
  let srcT ← a.get? sx sy
  let a := a.setTile sx sy { srcT with creation := none }
  let dstT ← a.get? dx dy
  pure (a.setTile dx dy { dstT with creation := srcT.creation })

/-- **C8**: `move_creation(sx, sy, dx, dy)` moves the creation from the
source tile to the destination tile; when a wizard shares the source tile
(the mount case) the wizard is relocated too; when no wizard is
co-located only the two tiles' creation slots change; in both cases every
tile other than source and destination is untouched, and so are the
source's spawn/corpse slots and the destination's other slots. -/
theorem C8_move_creation (a : Arena) (h : a.WF) {sx sy dx dy : Nat}
    (hsx : sx < 15) (hsy : sy < 10) (hdx : dx < 15) (hdy : dy < 10)
    (hne : (sx, sy) ≠ (dx, dy)) (src dst : Tile)
    (hsrc : a.get? sx sy = some src) (hdst : a.get? dx dy = some dst) :
    ∃ a', a.move_creation sx sy dx dy = some a' ∧
      (∀ w, src.wizard = some w →
        a'.get? sx sy = some { src with creation := none, wizard := none } ∧
        a'.get? dx dy = some { dst with creation := src.creation, wizard := some w }) ∧
      (src.wizard = none →
        a'.get? sx sy = some { src with creation := none } ∧
        a'.get? dx dy = some { dst with creation := src.creation }) ∧
      (∀ x y, x < 15 → y < 10 → (x, y) ≠ (sx, sy) → (x, y) ≠ (dx, dy) →
        a'.get? x y = a.get? x y) := by
  have hne' : (dx, dy) ≠ (sx, sy) := fun e => hne e.symm
  rcases hw : src.wizard with - | w
  · -- no wizard on the source tile: only the creation slots change
    refine ⟨(a.setTile sx sy { src with creation := none }).setTile dx dy
      { dst with creation := src.creation }, ?_, ?_, ?_, ?_⟩
    · rw [Arena.move_creation, hsrc]
      simp only [Option.bind_eq_bind, Option.some_bind]
      rw [hw, if_neg (by simp)]
      simp only [Option.pure_def, Option.some_bind]
      rw [hsrc]
      simp only [Option.some_bind]
      rw [get?_setTile_other a h _ hsx hsy hdx hdy hne', hdst]
      simp only [Option.some_bind]
      rw [hw]
    · intro w' hww
      exact absurd hww (by simp)
    · intro _
      constructor
      · rw [get?_setTile_other _ (setTile_WF _ _ _ _ h) _ hdx hdy hsx hsy hne,
          get?_setTile_same a h _ hsx hsy, hw]
      · rw [get?_setTile_same _ (setTile_WF _ _ _ _ h) _ hdx hdy]
    · intro x y hx hy hne1 hne2
      rw [get?_setTile_other _ (setTile_WF _ _ _ _ h) _ hdx hdy hx hy hne2,
        get?_setTile_other a h _ hsx hsy hx hy hne1]
  · -- a wizard rides along
    have h1 : (a.setTile sx sy { src with wizard := none }).WF := setTile_WF _ _ _ _ h
    have h2 : ((a.setTile sx sy { src with wizard := none }).setTile dx dy
        { dst with wizard := some w }).WF := setTile_WF _ _ _ _ h1
    have h3 : (((a.setTile sx sy { src with wizard := none }).setTile dx dy
        { dst with wizard := some w }).setTile sx sy
        { src with wizard := none, creation := none }).WF := setTile_WF _ _ _ _ h2
    refine ⟨(((a.setTile sx sy { src with wizard := none }).setTile dx dy
      { dst with wizard := some w }).setTile sx sy
      { src with wizard := none, creation := none }).setTile dx dy
      { dst with wizard := some w, creation := src.creation }, ?_, ?_, ?_, ?_⟩
    · rw [Arena.move_creation, hsrc]
      simp only [Option.bind_eq_bind, Option.some_bind]
      rw [hw, if_pos (by simp)]
      rw [get?_setTile_other a h _ hsx hsy hdx hdy hne', hdst]
      simp only [Option.some_bind, Option.pure_def]
      rw [get?_setTile_other _ (setTile_WF _ _ _ _ h) _ hdx hdy hsx hsy hne,
        get?_setTile_same a h _ hsx hsy]
      simp only [Option.some_bind]
      rw [get?_setTile_other _ (setTile_WF _ _ _ _ (setTile_WF _ _ _ _ h)) _ hsx hsy hdx hdy hne',
        get?_setTile_same _ (setTile_WF _ _ _ _ h) _ hdx hdy]
      simp only [Option.some_bind]
    · intro w' hww
      obtain rfl : w = w' := by simpa using hww
      constructor
      · rw [get?_setTile_other _ h3 _ hdx hdy hsx hsy hne,
          get?_setTile_same _ h2 _ hsx hsy]
      · rw [get?_setTile_same _ h3 _ hdx hdy]
    · intro hww
      exact absurd hww (by simp)
    · intro x y hx hy hne1 hne2
      rw [get?_setTile_other _ h3 _ hdx hdy hx hy hne2,
        get?_setTile_other _ h2 _ hsx hsy hx hy hne1,
        get?_setTile_other _ h1 _ hdx hdy hx hy hne2,
        get?_setTile_other a h _ hsx hsy hx hy hne1]

/-- Concrete creation stats used in witnesses: an attackable, subvertable
ground unit with a fully opaque 16×16 sprite drawn in bright white (every
row is `0xFFFF`, i.e. 65535). -/
def exCreationStats : CreationStats :=
  ⟨⟨"LION", 6, 0, 0, 4, 4, 3, 8⟩, 4, 1, false, false, false, false, true, true,
    false, false, false, false,
    ⟨30, [⟨List.replicate 16 65535, .BrightWhite, none⟩,
      ⟨List.replicate 16 65535, .BrightWhite, none⟩,
      ⟨List.replicate 16 65535, .BrightWhite, none⟩,
      ⟨List.replicate 16 65535, .BrightWhite, none⟩], none⟩⟩

/-- A concrete creation piece (id 0) used in witnesses. -/
def exGameCreation : GameCreation := ⟨0, 0, exCreationStats, 0, 0, false⟩

/-- A source tile holding only `exGameCreation`. -/
def exC8Src : Tile := ⟨none, none, some exGameCreation, none⟩

/-- The full 15×10 arena with `exGameCreation` at `(0, 0)`. -/
def exC8Arena : Arena := Arena.new.setTile 0 0 exC8Src

/-- **C8** witness: moving the creation at `(0, 0)` to `(1, 0)` with no
co-located wizard changes exactly the two creation slots. -/
theorem C8_witness :
    ∃ a', exC8Arena.move_creation 0 0 1 0 = some a' ∧
      a'.get? 0 0 = some { exC8Src with creation := none } ∧
      a'.get? 1 0 = some { Tile.empty with creation := exC8Src.creation } := by
  obtain ⟨a', h1, -, h3, -⟩ := @C8_move_creation exC8Arena (setTile_WF _ _ _ _ wf_new) 0 0 1 0
    (by norm_num) (by norm_num) (by norm_num) (by norm_num) (by decide)
    exC8Src Tile.empty (by decide) (by decide)
  obtain ⟨e1, e2⟩ := h3 rfl
  exact ⟨a', h1, e1, e2⟩

/-- `Arena::each_tile` (`src/data/arena.rs` lines 147–152): enumerate the
flat tile vector as `(i % width, i / width, tile)` triples. -/
def Arena.eachTile (a : Arena) : List (Nat × Nat × Tile) :=
  a.tiles.enum.map (fun p => (p.1 % a.width, p.1 / a.width, p.2))

/-- `Arena::each_tile_in_spell_range` (`src/data/arena.rs` lines 126–131):
keep the tiles with `distance <= range && distance > 0`, where `distance`
is the squared Euclidean distance computed in `isize`. -/
def Arena.each_tile_in_spell_range (a : Arena) (x y range : Nat) : List (Nat × Nat × Tile) :=
  a.eachTile.filter (fun p =>
    let distance := ((p.1 : Int) - (x : Int)) ^ 2 + ((p.2.1 : Int) - (y : Int)) ^ 2
    decide (distance ≤ (range : Int)) && decide (distance > 0))

/-- `Arena::each_tile_in_combat_range` (`src/data/arena.rs` lines 133–138):
`distance <= range.pow(2) && distance > 0`. -/
def Arena.each_tile_in_combat_range (a : Arena) (x y range : Nat) : List (Nat × Nat × Tile) :=
  a.eachTile.filter (fun p =>
    let distance := ((p.1 : Int) - (x : Int)) ^ 2 + ((p.2.1 : Int) - (y : Int)) ^ 2
    decide (distance ≤ (range : Int) ^ 2) && decide (distance > 0))

/-- `Arena::each_tile_in_flying_range` (`src/data/arena.rs` lines 140–145):
`distance` here is the squared Euclidean distance **minus one**, and the
filter keeps `distance <= movement.pow(2) && distance >= 0`. -/
def Arena.each_tile_in_flying_range (a : Arena) (x y movement : Nat) : List (Nat × Nat × Tile) :=
  a.eachTile.filter (fun p =>
    let distance := ((p.1 : Int) - (x : Int)) ^ 2 + ((p.2.1 : Int) - (y : Int)) ^ 2 - 1
    decide (distance ≤ (movement : Int) ^ 2) && decide (distance ≥ 0))

theorem mem_eachTile_iff (a : Arena) (h : a.WF) (tx ty : Nat) (t : Tile) :
    (tx, ty, t) ∈ a.eachTile ↔ tx < 15 ∧ ty < 10 ∧ a.tiles.get? (ty * 15 + tx) = some t := by
  obtain ⟨hw, -, hlen⟩ := h
  unfold Arena.eachTile
  rw [List.mem_map]
  constructor
  · rintro ⟨⟨i, s⟩, hmem, heq⟩
    rw [List.mk_mem_enum_iff_getElem?] at hmem
    obtain ⟨e1, e2, e3⟩ : i % a.width = tx ∧ i / a.width = ty ∧ s = t := by
      simpa using heq
    have hi : i < 150 := by
      by_contra hge
      rw [List.getElem?_eq_none (by omega)] at hmem
      exact absurd hmem (by simp)
    subst e1 e2 e3
    rw [hw]
    refine ⟨Nat.mod_lt _ (by norm_num), by omega, ?_⟩
    rw [List.get?_eq_getElem?]
    have hidx : i / 15 * 15 + i % 15 = i := by omega
    rw [hidx]
    exact hmem
  · rintro ⟨hx, hy, hget⟩
    refine ⟨(ty * 15 + tx, t), ?_, ?_⟩
    · rw [List.mk_mem_enum_iff_getElem?]
      rw [List.get?_eq_getElem?] at hget
      exact hget
    · rw [hw]
      simp only
      congr 1
      · omega
      · congr 1
        omega

/-- **C9**: the three range predicates select exactly the claimed tiles.
With centre `(x, y)` and squared Euclidean distance
`d = (tx-x)² + (ty-y)²`: spell range keeps a tile iff `0 < d ≤ range`
(the range value itself, not its square); combat range keeps it iff
`0 < d ≤ range²`; flying range keeps it iff `0 ≤ d - 1 ≤ movement²`; and
the centre tile itself is never kept by any of the three. -/
theorem C9_range_predicates (a : Arena) (h : a.WF) (x y range movement tx ty : Nat) (t : Tile) :
    ((tx, ty, t) ∈ a.each_tile_in_spell_range x y range ↔
      (tx < 15 ∧ ty < 10 ∧ a.tiles.get? (ty * 15 + tx) = some t ∧
        0 < ((tx : Int) - x) ^ 2 + ((ty : Int) - y) ^ 2 ∧
        ((tx : Int) - x) ^ 2 + ((ty : Int) - y) ^ 2 ≤ (range : Int))) ∧
    ((tx, ty, t) ∈ a.each_tile_in_combat_range x y range ↔
      (tx < 15 ∧ ty < 10 ∧ a.tiles.get? (ty * 15 + tx) = some t ∧
        0 < ((tx : Int) - x) ^ 2 + ((ty : Int) - y) ^ 2 ∧
        ((tx : Int) - x) ^ 2 + ((ty : Int) - y) ^ 2 ≤ (range : Int) ^ 2)) ∧
    ((tx, ty, t) ∈ a.each_tile_in_flying_range x y movement ↔
      (tx < 15 ∧ ty < 10 ∧ a.tiles.get? (ty * 15 + tx) = some t ∧
        0 ≤ ((tx : Int) - x) ^ 2 + ((ty : Int) - y) ^ 2 - 1 ∧
        ((tx : Int) - x) ^ 2 + ((ty : Int) - y) ^ 2 - 1 ≤ (movement : Int) ^ 2)) ∧
    ((x, y, t) ∉ a.each_tile_in_spell_range x y range ∧
      (x, y, t) ∉ a.each_tile_in_combat_range x y range ∧
      (x, y, t) ∉ a.each_tile_in_flying_range x y movement) := by
  have hspell : ∀ r : Nat, ((tx, ty, t) ∈ a.each_tile_in_spell_range x y r ↔
      (tx < 15 ∧ ty < 10 ∧ a.tiles.get? (ty * 15 + tx) = some t ∧
        0 < ((tx : Int) - x) ^ 2 + ((ty : Int) - y) ^ 2 ∧
        ((tx : Int) - x) ^ 2 + ((ty : Int) - y) ^ 2 ≤ (r : Int))) := by
    intro r
    unfold Arena.each_tile_in_spell_range
    rw [List.mem_filter, mem_eachTile_iff a h]
    simp only [Bool.and_eq_true, decide_eq_true_eq]
    constructor
    · rintro ⟨⟨p1, p2, p3⟩, q1, q2⟩
      exact ⟨p1, p2, p3, q2, q1⟩
    · rintro ⟨p1, p2, p3, q2, q1⟩
      exact ⟨⟨p1, p2, p3⟩, q1, q2⟩
  have hcombat : ((tx, ty, t) ∈ a.each_tile_in_combat_range x y range ↔
      (tx < 15 ∧ ty < 10 ∧ a.tiles.get? (ty * 15 + tx) = some t ∧
        0 < ((tx : Int) - x) ^ 2 + ((ty : Int) - y) ^ 2 ∧
        ((tx : Int) - x) ^ 2 + ((ty : Int) - y) ^ 2 ≤ (range : Int) ^ 2)) := by
    unfold Arena.each_tile_in_combat_range
    rw [List.mem_filter, mem_eachTile_iff a h]
    simp only [Bool.and_eq_true, decide_eq_true_eq]
    constructor
    · rintro ⟨⟨p1, p2, p3⟩, q1, q2⟩
      exact ⟨p1, p2, p3, q2, q1⟩
    · rintro ⟨p1, p2, p3, q2, q1⟩
      exact ⟨⟨p1, p2, p3⟩, q1, q2⟩
  have hfly : ((tx, ty, t) ∈ a.each_tile_in_flying_range x y movement ↔
      (tx < 15 ∧ ty < 10 ∧ a.tiles.get? (ty * 15 + tx) = some t ∧
        0 ≤ ((tx : Int) - x) ^ 2 + ((ty : Int) - y) ^ 2 - 1 ∧
        ((tx : Int) - x) ^ 2 + ((ty : Int) - y) ^ 2 - 1 ≤ (movement : Int) ^ 2)) := by
    unfold Arena.each_tile_in_flying_range
    rw [List.mem_filter, mem_eachTile_iff a h]
    simp only [Bool.and_eq_true, decide_eq_true_eq]
    constructor
    · rintro ⟨⟨p1, p2, p3⟩, q1, q2⟩
      exact ⟨p1, p2, p3, q2, q1⟩
    · rintro ⟨p1, p2, p3, q2, q1⟩
      exact ⟨⟨p1, p2, p3⟩, q1, q2⟩
  refine ⟨hspell range, hcombat, hfly, ?_, ?_, ?_⟩
  · intro hmem
    unfold Arena.each_tile_in_spell_range at hmem
    rw [List.mem_filter] at hmem
    have := hmem.2
    simp only [Bool.and_eq_true, decide_eq_true_eq] at this
    norm_num [sub_self] at this
  · intro hmem
    unfold Arena.each_tile_in_combat_range at hmem
    rw [List.mem_filter] at hmem
    have := hmem.2
    simp only [Bool.and_eq_true, decide_eq_true_eq] at this
    norm_num [sub_self] at this
  · intro hmem
    unfold Arena.each_tile_in_flying_range at hmem
    rw [List.mem_filter] at hmem
    have := hmem.2
    simp only [Bool.and_eq_true, decide_eq_true_eq] at this
    norm_num [sub_self] at this

/-- **C9** witness: in the fresh arena, `(1, 0)` (distance² = 1) is in
spell range 1 of the centre `(0, 0)`, and the centre is excluded. -/
theorem C9_witness :
    (1, 0, Tile.empty) ∈ Arena.new.each_tile_in_spell_range 0 0 1 ∧
    (0, 0, Tile.empty) ∉ Arena.new.each_tile_in_spell_range 0 0 1 := by
  have h := C9_range_predicates Arena.new wf_new 0 0 1 1 1 0 Tile.empty
  have h2 := C9_range_predicates Arena.new wf_new 0 0 1 1 0 0 Tile.empty
  exact ⟨h.1.mpr (by refine ⟨by norm_num, by norm_num, by decide, by norm_num, by norm_num⟩),
    h2.2.2.2.1⟩

/-- `i8::saturating_add`, used by `Arena::adjust_alignment`
(`src/data/arena.rs` lines 87–89). -/
def saturatingAddI8 (a b : Int) : Int := max (-128) (min 127 (a + b))

/-- `Arena::adjust_alignment`: saturating add onto the world alignment. -/
def Arena.adjust_alignment (a : Arena) (d : Int) : Arena :=
  { a with alignment := saturatingAddI8 a.alignment d }

/-- The outbound events the Disbelieve resolution can emit
(`Sender::disbelieve`, `Sender::spell_succeeds`, `Sender::spell_fails`). -/
inductive Event where
  | disbelieve (id x y : Nat) (success : Bool)
  | spellSucceeds (alignment : Int)
  | spellFails
deriving DecidableEq, Repr

/-- The `SpellKind::Disbelieve` branch of `GameLogic::do_spell`
(`src/net/server/game_logic.rs` lines 190–211), from the point where the
target tile `(x, y)` has been chosen:
```rust
let tile = state.arena.get_mut(x, y);
if let Some(GameCreation { illusion: true, .. }) = tile.creation.as_mut() {
    self.tx.disbelieve(id, x, y, true).await?;
    tile.creation = None;
    state.arena.adjust_alignment(spell.alignment);
    self.tx.spell_succeeds(state.arena.alignment).await?;
} else {
    self.tx.disbelieve(id, x, y, false).await?;
    self.tx.spell_fails().await?;
}
```
No cast-chance roll is performed: the branch takes no random draw.
`none` models the panic on an out-of-range tile. -/
def doDisbelieve (a : Arena) (id x y : Nat) (spellAlignment : Int) :
    Option (Arena × List Event) :=
  (a.get? x y).map fun t =>
    match t.creation with
    | some c =>
      if c.illusion then
        let a' := (a.setTile x y { t with creation := none }).adjust_alignment spellAlignment
        (a', [.disbelieve id x y true, .spellSucceeds a'.alignment])
      else (a, [.disbelieve id x y false, .spellFails])
    | none => (a, [.disbelieve id x y false, .spellFails])

/-- **C5**: resolving a Disbelieve cast on a chosen target tile performs no
cast-chance roll (`doDisbelieve` takes no draw) and succeeds iff the
target creation's illusion flag is set: on success the tile's creation
slot becomes empty, the world alignment is adjusted and a success event
pair is emitted (with every other tile untouched); otherwise a failure
event pair is emitted and the arena is unchanged. -/
theorem C5_disbelieve (a : Arena) (h : a.WF) (id x y : Nat) (d : Int)
    (hx : x < 15) (hy : y < 10) (t : Tile) (ht : a.get? x y = some t) :
    ∃ a' evs, doDisbelieve a id x y d = some (a', evs) ∧
      ((∃ c, t.creation = some c ∧ c.illusion = true) →
        a' = (a.setTile x y { t with creation := none }).adjust_alignment d ∧
        a'.get? x y = some { t with creation := none } ∧
        evs = [.disbelieve id x y true, .spellSucceeds a'.alignment] ∧
        (∀ x' y', x' < 15 → y' < 10 → (x', y') ≠ (x, y) → a'.get? x' y' = a.get? x' y')) ∧
      ((∀ c, t.creation = some c → c.illusion = false) →
        a' = a ∧ evs = [.disbelieve id x y false, .spellFails]) := by
  rcases hc : t.creation with - | c
  · have hred : doDisbelieve a id x y d = some (a, [.disbelieve id x y false, .spellFails]) := by
      rw [doDisbelieve, ht, Option.map_some', hc]
    refine ⟨_, _, hred, ?_, fun _ => ⟨rfl, rfl⟩⟩
    rintro ⟨c, hcc, -⟩
    exact absurd hcc (by simp)
  · rcases hill : c.illusion with - | -
    · have hred : doDisbelieve a id x y d
          = some (a, [.disbelieve id x y false, .spellFails]) := by
        simp only [doDisbelieve, ht, Option.map_some', hc, hill, Bool.false_eq_true, if_false]
      refine ⟨_, _, hred, ?_, fun _ => ⟨rfl, rfl⟩⟩
      rintro ⟨c', hcc, hill'⟩
      obtain rfl : c = c' := by simpa using hcc
      rw [hill] at hill'
      exact absurd hill' (by simp)
    · have hred : doDisbelieve a id x y d
          = some ((a.setTile x y { t with creation := none }).adjust_alignment d,
            [.disbelieve id x y true,
             .spellSucceeds ((a.setTile x y { t with creation := none }).adjust_alignment
               d).alignment]) := by
        simp only [doDisbelieve, ht, Option.map_some', hc, hill, if_true]
      refine ⟨_, _, hred, ?_, ?_⟩
      · intro _
        refine ⟨rfl, ?_, rfl, ?_⟩
        · show (a.setTile x y { t with creation := none }).get? x y = _
          exact get?_setTile_same a h _ hx hy
        · intro x' y' hx' hy' hne
          show (a.setTile x y { t with creation := none }).get? x' y' = a.get? x' y'
          exact get?_setTile_other a h _ hx hy hx' hy' hne
      · intro hall
        have := hall c rfl
        rw [hill] at this
        exact absurd this (by simp)

/-- An arena with an illusionary creation at `(0, 0)`, for the Disbelieve
witness. -/
def exC5Arena : Arena :=
  Arena.new.setTile 0 0 ⟨none, none, some { exGameCreation with illusion := true }, none⟩

/-- **C5** witness: disbelieving the illusion at `(0, 0)` succeeds, empties
the creation slot and emits the success events. -/
theorem C5_witness :
    ∃ a' evs, doDisbelieve exC5Arena 7 0 0 0 = some (a', evs) ∧
      a'.get? 0 0 = some ⟨none, none, none, none⟩ ∧
      evs = [.disbelieve 7 0 0 true, .spellSucceeds a'.alignment] := by
  obtain ⟨a', evs, h1, h2, -⟩ := C5_disbelieve exC5Arena (setTile_WF _ _ _ _ wf_new) 7 0 0 0
    (by norm_num) (by norm_num)
    ⟨none, none, some { exGameCreation with illusion := true }, none⟩ (by decide)
  obtain ⟨-, e2, e3, -⟩ := h2 ⟨{ exGameCreation with illusion := true }, rfl, rfl⟩
  exact ⟨a', evs, h1, e2, e3⟩

/-- `Arena::line_coords` (`src/data/arena.rs` lines 539–565): the Bresenham
line between the centers of two tiles in a 16-units-per-tile pixel space
(`x*16 + 8`).  The Rust loop terminates when the moving point reaches the
destination; each iteration advances at least one axis, so
`deltaX + deltaY + 1` iterations always suffice and are passed as fuel. -/
def lineLoop : Nat → Int → Int → Int → Int → Int → Int → Int → Int → Int → List (Nat × Nat)
  | 0, _, _, _, _, _, _, _, _, _ => []
  | fuel + 1, sx, sy, dx, dy, deltaX, deltaY, signX, signY, err =>
    if sx = dx ∧ sy = dy then [(sx.toNat, sy.toNat)]
    else
      let e2 := 2 * err
      let err1 := if e2 > -deltaY then err - deltaY else err
      let sx1 := if e2 > -deltaY then sx + signX else sx
      let err2 := if e2 < deltaX then err1 + deltaX else err1
      let sy1 := if e2 < deltaX then sy + signY else sy
      (sx.toNat, sy.toNat) :: lineLoop fuel sx1 sy1 dx dy deltaX deltaY signX signY err2

/-- `Arena::line_coords` entry point (see `lineLoop`). -/
def Arena.line_coords (sx sy dx dy : Nat) : List (Nat × Nat) :=
  let sx' : Int := sx * 16 + 8
  let sy' : Int := sy * 16 + 8
  let dx' : Int := dx * 16 + 8
  let dy' : Int := dy * 16 + 8
  let deltaX := |dx' - sx'|
  let deltaY := |dy' - sy'|
  let signX : Int := if sx' < dx' then 1 else -1
  let signY : Int := if sy' < dy' then 1 else -1
  lineLoop (deltaX + deltaY + 1).toNat sx' sy' dx' dy' deltaX deltaY signX signY
    (deltaX - deltaY)

/-- `Iterator::step_by(4)` on a coordinate list: keep indices 0, 4, 8, …
(take one, skip three). -/
def stepBy4 : List (Nat × Nat) → List (Nat × Nat)
  | [] => []
  | [p] => [p]
  | [p, _] => [p]
  | [p, _, _] => [p]
  | p :: _ :: _ :: _ :: rest => p :: stepBy4 rest

/-- The topmost-piece pixel of one tile at offset `(ox, oy)` inside its
16×16 block, as `impl From<&Arena> for Buffer` draws it
(`src/data/arena.rs` lines 766–787): the spawn if present, else the
creation, else the wizard, else the corpse (drawn only when it has a
`corpse_buf`, i.e. `stats.gfx.corpse`), else nothing (black). -/
def tilePixel (t : Tile) (ox oy : Nat) : Nat :=
  match t.spawn with
  | some s => s.creation.currentSprite.pixel ox oy
  | none =>
    match t.creation with
    | some c => c.currentSprite.pixel ox oy
    | none =>
      match t.wizard with
      | some w => w.currentSprite.pixel ox oy
      | none =>
        match t.corpse with
        | some c =>
          match c.stats.gfx.corpse with
          | some f => f.pixel ox oy
          | none => Color.Black.toU32
        | none => Color.Black.toU32

/-- A pixel of `Buffer::from(&Arena)`: `Buffer::new(30, 20)` is a 240×160
all-black pixel buffer and `draw_buffer` places each tile's topmost
16×16 sprite (`from_shorts` of a 32-byte frame) at cell `(2x, 2y)`, i.e.
pixel block `(16x, 16y)`; blocks are disjoint, so the pixel at
`(px, py)` is the sprite pixel of tile `(px/16, py/16)` at offset
`(px%16, py%16)`. -/
def arenaPixel (a : Arena) (px py : Nat) : Nat :=
  match a.get? (px / 16) (py / 16) with
  | some t => tilePixel t (px % 16) (py % 16)
  | none => Color.Black.toU32

/-- The clone-and-clear preamble of `Arena::line_of_sight`
(`src/data/arena.rs` lines 618–631): corpses are removed everywhere, the
two endpoint tiles are fully cleared, and transparent creations are
removed. -/
def Arena.clearForSight (a : Arena) (sx sy dx dy : Nat) : Arena :=
  { a with tiles := a.tiles.enum.map fun p =>
      let x := p.1 % a.width
      let y := p.1 / a.width
      let t := { p.2 with corpse := none }
      if (x = sx ∧ y = sy) ∨ (x = dx ∧ y = dy) then
        { t with spawn := none, creation := none, wizard := none }
      else
        match t.creation with
        | some c => if c.stats.transparent then { t with creation := none } else t
        | none => t }

/-- `Arena::line_of_sight` (`src/data/arena.rs` lines 618–641): rasterize
the line between the tile centers, sample every 4th coordinate, and sight
holds iff every sampled pixel of the cleared arena's buffer is
background black. -/
def Arena.line_of_sight (a : Arena) (sx sy dx dy : Nat) : Bool :=
  let arena := a.clearForSight sx sy dx dy
  let coords := Arena.line_coords sx sy dx dy
  (stepBy4 coords).all fun p => arenaPixel arena p.1 p.2 == Color.Black.toU32

theorem lineCoords_self (sx sy : Nat) :
    Arena.line_coords sx sy sx sy = [(sx * 16 + 8, sy * 16 + 8)] := by
  unfold Arena.line_coords
  norm_num [lineLoop]
  constructor <;> omega

theorem clearForSight_endpoint (a : Arena) (h : a.WF) {sx sy dx dy x y : Nat}
    (hx : x < 15) (hy : y < 10) (hend : (x = sx ∧ y = sy) ∨ (x = dx ∧ y = dy)) :
    (a.clearForSight sx sy dx dy).get? x y = some ⟨none, none, none, none⟩ := by
  obtain ⟨hw, -, hlen⟩ := h
  rw [Arena.clearForSight, Arena.get?]
  simp only
  rw [tileIndex_inbounds a.width hw hx hy]
  rw [List.get?_eq_getElem?, List.getElem?_map, List.getElem?_enum]
  obtain ⟨t, ht⟩ : ∃ t, a.tiles[y * 15 + x]? = some t := by
    rw [List.getElem?_eq_getElem (by omega)]
    exact ⟨_, rfl⟩
  rw [ht]
  simp only [Option.map_some']
  have e1 : (y * 15 + x) % a.width = x := by rw [hw]; omega
  have e2 : (y * 15 + x) / a.width = y := by rw [hw]; omega
  simp only [e1, e2]
  rw [if_pos hend]

/-- **C4** (amended): for every in-bounds tile `p` on any 15×10 arena,
`line_of_sight(p, p)` is true — the degenerate line is the single center
pixel of `p`, and both endpoint tiles are cleared before sampling.
(Symmetry, the second half of the original claim, fails: see the
counterexample.) -/
theorem C4_line_of_sight_amended (a : Arena) (h : a.WF) (x y : Nat)
    (hx : x < 15) (hy : y < 10) : a.line_of_sight x y x y = true := by
  show (stepBy4 (Arena.line_coords x y x y)).all
    (fun p => arenaPixel (a.clearForSight x y x y) p.1 p.2 == Color.Black.toU32) = true
  rw [lineCoords_self]
  have hstep : stepBy4 [(x * 16 + 8, y * 16 + 8)] = [(x * 16 + 8, y * 16 + 8)] := by
    simp [stepBy4]
  rw [hstep, List.all_cons, List.all_nil]
  have hdiv : (x * 16 + 8) / 16 = x := by omega
  have hmod : (x * 16 + 8) % 16 = 8 := by omega
  have hdiv2 : (y * 16 + 8) / 16 = y := by omega
  have hmod2 : (y * 16 + 8) % 16 = 8 := by omega
  simp only [arenaPixel, hdiv, hmod, hdiv2, hmod2]
  rw [clearForSight_endpoint a h hx hy (Or.inl ⟨rfl, rfl⟩)]
  rfl

/-- **C4** witness: the amended reflexivity theorem applied at the fresh
arena and tile `(0, 0)`. -/
theorem C4_witness : Arena.new.line_of_sight 0 0 0 0 = true :=
  C4_line_of_sight_amended Arena.new wf_new 0 0 (by norm_num) (by norm_num)

/-- An arena whose only occupant is the opaque creation at `(0, 4)`, for
the line-of-sight asymmetry counterexample. -/
def exC4Arena : Arena := Arena.new.setTile 0 4 ⟨none, none, some exGameCreation, none⟩

theorem C4_counterexample :
    exC4Arena.line_of_sight 0 8 1 0 = false ∧ exC4Arena.line_of_sight 1 0 0 8 = true := by
  refine ⟨by decide, by decide⟩

end Chaos
